import Mathlib

/-!
Shallow embedding of the atc-del-simulator core: the flight-plan
synthesizer (`atc_del_simulator.py`: `generate_vfr_flight_plans`,
`get_ifr_flight_plans`), the departure rule resolution engine
(`get_rules_info`) and the IFR clearance phrase builder inlined in the
`route` command of `cli.py`.

Modelling conventions:
- Python dictionaries with possibly-absent keys become association lists
  (`List (String × α)`) or `Option` fields; `k in d` becomes an
  `isSome` test on the lookup.
- Python exceptions escaping `get_rules_info` (`KeyError`,
  `IndexError`) become `Except PyErr`.
- `random.randint` / `random.choice` / `random.choices` become pure
  functions of an explicit entropy argument, one entropy record per
  generated item.
- String truthiness (`if s:`) becomes `s != ""`; dict truthiness of the
  accumulated `dep_details` / `sid_details` values becomes a match on an
  explicit emptiness constructor / `Option`.
-/

/-- A Python `KeyError` or `IndexError` escaping `get_rules_info`. -/
inductive PyErr where
  | keyError (key : String)
  | indexError
  deriving DecidableEq

/-- Python dict lookup (`d[k]` / `d.get(k)`), dict modelled as an association list. -/
def lookupS {α : Type} : List (String × α) → String → Option α
  | [], _ => none
  | p :: rest, k => if p.1 == k then some p.2 else lookupS rest k

/-- Whether `sub` occurs as a contiguous run somewhere in `l`. -/
def hasSubList (sub : List Char) : List Char → Bool
  | [] => sub.isEmpty
  | l@(_ :: rest) => sub.isPrefixOf l || hasSubList sub rest

/-- Python substring test `sub in s`. -/
def containsSub (s sub : String) : Bool :=
  hasSubList sub.toList s.toList

/-- Python `s.split(" ")` with the explicit single-space separator:
consecutive separators produce empty parts, and the result is never
empty (`"".split(" ") == [""]`). -/
def splitSpAux : List Char → List Char → List String
  | [], acc => [String.mk acc.reverse]
  | c :: cs, acc =>
    if c == ' ' then String.mk acc.reverse :: splitSpAux cs []
    else splitSpAux cs (c :: acc)

/-- Python `s.split(" ")`. -/
def pySplitSpace (s : String) : List String :=
  splitSpAux s.toList []

/-- A SID definition from the rules file: `rules["sids"][ident]`. -/
structure SidDef where
  name : String
  type : String
  transitions : List String
  waypoints : List String
  deriving DecidableEq

/-- An entry of `rules["ifr_departures"][runway_configuration]`. -/
structure IfrDep where
  sid : String
  waypoints : List String
  cvs : Bool
  top_altitude : String
  departure_frequency : Option String
  aircraft_types : List String
  deriving DecidableEq

/-- An entry of `rules["vfr_departures"][runway_configuration]`. -/
structure VfrDep where
  direction : List String
  altitude : String
  instructions : String
  departure_frequency : Option String
  deriving DecidableEq

/-- The rules document loaded from the JSON rules file; every section may
be absent (`"x" in rules` tests in the source). -/
structure Rules where
  runway_configurations : Option (List String)
  sids : Option (List (String × SidDef))
  ifr_departures : Option (List (String × List IfrDep))
  vfr_departures : Option (List (String × List VfrDep))
  departure_frequencies : Option (List (String × String))
  deriving DecidableEq

/-- `rules_details["dep_details"]`: initially the empty dict `{}`, later
either an IFR departure procedure or a VFR departure entry. -/
inductive DepDetails where
  | empty
  | ifr (d : IfrDep)
  | vfr (d : VfrDep)
  deriving DecidableEq

/-- The `rules_details` dictionary built by `get_rules_info`. -/
structure RulesDetails where
  dep_details : DepDetails
  dep_frequency : String
  dep_transition : String
  dep_waypoint : String
  sid_details : Option SidDef
  vfr_altitude : String
  vfr_instructions : String
  deriving DecidableEq

/-- The initial all-empty `rules_details` value (lines 259-267). -/
def emptyRulesDetails : RulesDetails :=
  { dep_details := DepDetails.empty
    dep_frequency := ""
    dep_transition := ""
    dep_waypoint := ""
    sid_details := none
    vfr_altitude := ""
    vfr_instructions := "" }

/-- The raw `origin` / `destination` sub-record of a departure record. -/
structure RawAirport where
  code_icao : Option String
  deriving DecidableEq

/-- A synthesized flight plan (the dictionary built by the generators). -/
structure FlightPlan where
  ident : String
  aircraft_type : String
  origin_icao : String
  origin_details : Option RawAirport
  origin_raw_metar : String
  destination_icao : String
  destination_details : Option RawAirport
  operator_icao : String
  route : String
  squawk : Nat
  rules_details : RulesDetails
  deriving DecidableEq

/-- The first element of `xs` (scanned in order) that is a member of
`ys`; models a `for x in xs: if x in ys: ...; break` search loop. -/
def firstMem : List String → List String → Option String
  | [], _ => none
  | x :: xs, ys => if ys.contains x then some x else firstMem xs ys

/-- The `for ifr_departure in rules["ifr_departures"][runway_configuration]`
loop of `get_rules_info` (lines 274-307): `t0` is `route_waypoints[0]`,
`sid` the SID definition looked up for `t0`, `tokens` the route split on
single spaces, `rd` the `rules_details` accumulator. -/
def ifrScan (t0 : String) (sid : SidDef) (tokens : List String) :
    RulesDetails → List IfrDep → RulesDetails
  | rd, [] => rd
  | rd, d :: rest =>
    if d.sid != t0 then ifrScan t0 sid tokens rd rest
    else
      let rd1 := { rd with sid_details := some sid }
      if d.waypoints.isEmpty then
        -- auto-apply: no waypoints on the matching procedure
        let rd2 := { rd1 with dep_details := DepDetails.ifr d }
        let rd3 := match firstMem sid.transitions tokens with
          | some t => { rd2 with dep_transition := t }
          | none => rd2
        match firstMem tokens sid.waypoints with
        | some w => { rd3 with dep_waypoint := w }
        | none => rd3
      else
        let rd2 := match firstMem sid.transitions tokens with
          | some t => { rd1 with dep_transition := t, dep_waypoint := t }
          | none => rd1
        if rd2.dep_transition != "" then { rd2 with dep_details := DepDetails.ifr d }
        else
          let rd3 := match firstMem tokens d.waypoints with
            | some w => { rd2 with dep_waypoint := w }
            | none => rd2
          if rd3.dep_waypoint != "" then { rd3 with dep_details := DepDetails.ifr d }
          else ifrScan t0 sid tokens rd3 rest

/-- The `for vfr_departure in rules["vfr_departures"][runway_configuration]`
loop of `get_rules_info` (lines 316-321). -/
def vfrScan (dir : String) : RulesDetails → List VfrDep → RulesDetails
  | rd, [] => rd
  | rd, d :: rest =>
    if d.direction.contains dir then
      { rd with dep_details := DepDetails.vfr d
                vfr_altitude := d.altitude
                vfr_instructions := d.instructions }
    else vfrScan dir rd rest

/-- The IFR branch of `get_rules_info` (lines 269-307); reads only the
plan's `route`. -/
def ifrStep (rules : Rules) (route : String) (cfg : String) :
    Except PyErr RulesDetails :=
  if route != "" && !containsSub route "VFR" &&
      rules.ifr_departures.isSome && rules.sids.isSome then
    let tokens := pySplitSpace route
    let t0 := tokens.headD ""
    let sids := rules.sids.getD []
    if (lookupS sids t0).isSome then
      match rules.runway_configurations with
      | none => Except.error (PyErr.keyError "runway_configurations")
      | some rcs =>
        if rcs.contains cfg then
          match lookupS (rules.ifr_departures.getD []) cfg with
          | none => Except.error (PyErr.keyError cfg)
          | some deps =>
            match lookupS sids t0 with
            | some sid => Except.ok (ifrScan t0 sid tokens emptyRulesDetails deps)
            | none => Except.ok emptyRulesDetails
        else Except.ok emptyRulesDetails
    else Except.ok emptyRulesDetails
  else Except.ok emptyRulesDetails

/-- The VFR branch of `get_rules_info` (lines 308-321); reads only the
plan's `route`.  `flight_plan["route"].split(" ")[1]` raises
`IndexError` when the split yields fewer than two tokens. -/
def vfrStep (rules : Rules) (route : String) (cfg : String)
    (rd : RulesDetails) : Except PyErr RulesDetails :=
  if route != "" && containsSub route "VFR" && rules.vfr_departures.isSome then
    match rules.runway_configurations with
    | none => Except.error (PyErr.keyError "runway_configurations")
    | some rcs =>
      if rcs.contains cfg then
        match (pySplitSpace route)[1]? with
        | none => Except.error PyErr.indexError
        | some dir =>
          match lookupS (rules.vfr_departures.getD []) cfg with
          | none => Except.error (PyErr.keyError cfg)
          | some deps => Except.ok (vfrScan dir rd deps)
      else Except.ok rd
  else Except.ok rd

/-- The `departure_frequency` key carried by `dep_details`
(`"departure_frequency" in rules_details["dep_details"]`). -/
def depFrequencyKey : DepDetails → Option String
  | DepDetails.empty => none
  | DepDetails.ifr d => d.departure_frequency
  | DepDetails.vfr d => d.departure_frequency

/-- The frequency resolution step of `get_rules_info` (lines 322-329). -/
def freqStep (rules : Rules) (rd : RulesDetails) : RulesDetails :=
  match depFrequencyKey rd.dep_details, rules.departure_frequencies with
  | some k, some freqs =>
    match lookupS freqs k with
    | some v => { rd with dep_frequency := v }
    | none => rd
  | _, _ => rd

/-- The body of `get_rules_info` (lines 259-330) up to the final
write-back; it reads only the plan's `route`. -/
def get_rules_details (rules : Rules) (route : String) (cfg : String) :
    Except PyErr RulesDetails :=
  match ifrStep rules route cfg with
  | Except.error e => Except.error e
  | Except.ok rd1 =>
    match vfrStep rules route cfg rd1 with
    | Except.error e => Except.error e
    | Except.ok rd2 => Except.ok (freqStep rules rd2)

/-- `get_rules_info` (lines 257-332): computes the rules details,
writes them onto the flight plan's `rules_details` field (line 331) and
returns them; an escaping exception prevents both. -/
def get_rules_info (rules : Rules) (fp : FlightPlan) (cfg : String) :
    Except PyErr (RulesDetails × FlightPlan) :=
  match get_rules_details rules fp.route cfg with
  | Except.error e => Except.error e
  | Except.ok rd => Except.ok (rd, { fp with rules_details := rd })

/-! ### Flight plan synthesizer -/

/-- `random.randint(lo, hi)` (both ends inclusive), as a function of an
entropy value `r`. -/
def pyRandint (lo hi r : Nat) : Nat :=
  lo + r % (hi - lo + 1)

/-- `random.choice(xs)` over a list of strings, as a function of an
entropy value. -/
def pyChoiceS (xs : List String) (r : Nat) : String :=
  xs.getD (r % xs.length) ""

/-- `random.choice` / `random.choices` picking a character, as a
function of an entropy value. -/
def pyChoiceC (xs : List Char) (r : Nat) : Char :=
  xs.getD (r % xs.length) ' '

/-- `string.ascii_uppercase + string.digits`. -/
def ALNUM : List Char :=
  "ABCDEFGHIJKLMNOPQRSTUVWXYZ0123456789".toList

/-- The fixed whitelist of general-aviation types (module constant). -/
def VFR_AIRCRAFT_TYPES : List String :=
  ["BE33", "BE35", "BE50", "BE55", "BE56", "BE58", "B58T", "C152", "C172",
   "C182", "C206", "SR20", "SR22", "DV20", "DA40", "DA42", "DA46", "M20P",
   "M20T", "P28A", "P28R"]

/-- The fixed set of VFR sector tokens (module constant). -/
def VFR_ROUTES : List String :=
  ["N", "NE", "E", "SE", "S", "SW", "W", "NW", "SFO"]

/-- The entropy consumed by one iteration of `generate_vfr_flight_plans`:
the callsign digits, the two callsign characters, the aircraft type
choice, the sector choice and the squawk draw. -/
structure VfrRand where
  identNum : Nat
  identC1 : Nat
  identC2 : Nat
  acType : Nat
  routeDir : Nat
  squawkR : Nat
  deriving DecidableEq

/-- One loop body of `generate_vfr_flight_plans` (lines 171-185). -/
def mkVfrFlightPlan (origin metar : String) (e : VfrRand) : FlightPlan :=
  { ident := "N" ++ toString (pyRandint 100 999 e.identNum) ++
      String.mk [pyChoiceC ALNUM e.identC1, pyChoiceC ALNUM e.identC2]
    aircraft_type := pyChoiceS VFR_AIRCRAFT_TYPES e.acType
    origin_icao := origin
    origin_details := none
    origin_raw_metar := metar
    destination_icao := ""
    destination_details := none
    operator_icao := ""
    route := "VFR " ++ pyChoiceS VFR_ROUTES e.routeDir
    squawk := pyRandint 100 6999 e.squawkR
    rules_details := emptyRulesDetails }

/-- `generate_vfr_flight_plans` (lines 164-187): `number` iterations,
one entropy record per iteration; the METAR fetch is an external
collaborator, its result is the `metar` argument. -/
def generate_vfr_flight_plans (origin metar : String) (number : Nat)
    (rand : Nat → VfrRand) : List FlightPlan :=
  (List.range number).map (fun i => mkVfrFlightPlan origin metar (rand i))

/-- A raw departure record from the flight record source; every textual
field may be absent (`"x" in departure` tests in the source). -/
structure RawDeparture where
  ident : Option String
  aircraft_type : Option String
  origin : Option RawAirport
  destination : Option RawAirport
  operator_icao : Option String
  route : Option String
  deriving DecidableEq

/-- Python `s.strip()`: drop whitespace from both ends (structural
recursion over the characters). -/
def pyStrip (s : String) : String :=
  String.mk (((s.toList.dropWhile Char.isWhitespace).reverse.dropWhile
    Char.isWhitespace).reverse)

/-- `departure["x"].strip() if "x" in departure and departure["x"] else ""`. -/
def strOrEmpty (s : Option String) : String :=
  match s with
  | some v => if v != "" then pyStrip v else ""
  | none => ""

/-- `departure["a"]["code_icao"].strip() if "a" in departure and
"code_icao" in departure["a"] and departure["a"]["code_icao"] else ""`. -/
def airportIcao (a : Option RawAirport) : String :=
  match a with
  | some ap =>
    match ap.code_icao with
    | some v => if v != "" then pyStrip v else ""
    | none => ""
  | none => ""

/-- One loop body of `get_ifr_flight_plans` (lines 214-253), normalizing
a raw departure record into a flight plan; `r` is the entropy for the
squawk draw.  The cache insertion side effect is owned by the external
flight record source and does not affect the produced plan. -/
def mkIfrFlightPlan (metar : String) (d : RawDeparture) (r : Nat) : FlightPlan :=
  { ident := strOrEmpty d.ident
    aircraft_type := strOrEmpty d.aircraft_type
    origin_icao := airportIcao d.origin
    origin_details := d.origin
    origin_raw_metar := metar
    destination_icao := airportIcao d.destination
    destination_details := d.destination
    operator_icao := strOrEmpty d.operator_icao
    route := strOrEmpty d.route
    squawk := pyRandint 100 6999 r
    rules_details := emptyRulesDetails }

/-- The `for departure in departures` loop of `get_ifr_flight_plans`
(lines 198-253): `i` is the number of plans produced so far, and the
loop breaks as soon as `len(flight_plans) >= number`. -/
def ifrPlansGo (metar : String) (rand : Nat → Nat) (number : Nat) :
    Nat → List RawDeparture → List FlightPlan
  | _, [] => []
  | i, d :: rest =>
    if number ≤ i then []
    else mkIfrFlightPlan metar d (rand i) :: ifrPlansGo metar rand number (i + 1) rest

/-- `get_ifr_flight_plans` (lines 190-254): iterates over the fetched
departures, breaking once `number` plans have been produced. -/
def get_ifr_flight_plans (metar : String) (departures : List RawDeparture)
    (number : Nat) (rand : Nat → Nat) : List FlightPlan :=
  ifrPlansGo metar rand number 0 departures

/-! ### Batch assembly and clearance building (`cli.py`, `route`) -/

/-- `cli.py` line 173: a displayed plan is marked VFR when its route is
empty or contains the `"VFR"` marker. -/
def flight_rules (fp : FlightPlan) : String :=
  if fp.route != "" && !containsSub fp.route "VFR" then "IFR" else "VFR"

/-- `cli.py` line 125: `vfr_number if vfr_number < number else number`. -/
def clamp_vfr (number vfr_number : Int) : Int :=
  if vfr_number < number then vfr_number else number

/-- `cli.py` lines 125 and 152-167: the batch handed to `random.shuffle`,
built from the clamped VFR count, the IFR generator and the VFR
generator. -/
def route_flight_plans (number vfr_number : Int) (metar : String)
    (departures : List RawDeparture) (ifrRand : Nat → Nat)
    (origin : String) (vfrRand : Nat → VfrRand) : List FlightPlan :=
  let v := clamp_vfr number vfr_number
  (if number > 0 then
      get_ifr_flight_plans metar departures (number - v).toNat ifrRand
    else []) ++
  (if v > 0 then generate_vfr_flight_plans origin metar v.toNat vfrRand
    else [])

/-- Python `f"{n:04d}"` on a natural number: the decimal digits, padded
with zeros on the left to width 4. -/
def pad4 (n : Nat) : String :=
  if n < 10000 then
    String.mk [Nat.digitChar (n / 1000), Nat.digitChar (n / 100 % 10),
               Nat.digitChar (n / 10 % 10), Nat.digitChar (n % 10)]
  else toString n

/-- Lines 305-317 of `cli.py`: the clearance prefix — callsign, ground
station, destination, SID-or-direct clause and the transition / waypoint
clause ("Radar vectors" only for a matched SID of type `"RADAR"`). -/
def ifrPrefix (origin_icao : String) (fp : FlightPlan)
    (rd : RulesDetails) : String :=
  let s := fp.ident ++ ", " ++ origin_icao ++ " GND, Cleared to " ++
    fp.destination_icao ++ ", "
  let s := match rd.sid_details with
    | some sd => s ++ sd.name ++ " departure, "
    | none => s ++ "direct, "
  if rd.dep_transition != "" then
    s ++ rd.dep_transition ++ " transition, then as filed, "
  else if rd.dep_waypoint != "" then
    (if (match rd.sid_details with
          | some sd => sd.type == "RADAR"
          | none => false) then s ++ "Radar vectors " else s) ++
      rd.dep_waypoint ++ ", then as filed, "
  else s

/-- Lines 318-321 of `cli.py`: the climb-via-SID / maintain clause
appended for a matched IFR procedure. -/
def altitudeClause (d : IfrDep) : String :=
  if d.cvs then
    "Climb via SID, " ++
      (if d.top_altitude != "SID" then
        "Except maintain " ++ d.top_altitude ++ ", " else "")
  else "Maintain " ++ d.top_altitude ++ ", "

/-- Lines 324-325 of `cli.py`: the departure-frequency clause, empty
when no frequency was resolved. -/
def frequencyClause (rd : RulesDetails) : String :=
  if rd.dep_frequency != "" then
    "Departure frequency " ++ rd.dep_frequency ++ ", "
  else ""

/-- Lines 326-327 of `cli.py`: the squawk clause, omitted for a falsy
(zero) squawk. -/
def squawkClause (fp : FlightPlan) : String :=
  if fp.squawk != 0 then "Squawk " ++ pad4 fp.squawk else ""

/-- The IFR `full_clearance` builder of `cli.py` (lines 305-327).
`rules_details["dep_details"]["cvs"]` would raise a `KeyError` on a VFR
procedure dictionary; on the IFR display path `dep_details` is never a
VFR entry. -/
def build_ifr_clearance (origin_icao : String) (fp : FlightPlan)
    (rd : RulesDetails) : Except PyErr String :=
  let s := ifrPrefix origin_icao fp rd
  match rd.dep_details with
  | DepDetails.vfr _ => Except.error (PyErr.keyError "cvs")
  | DepDetails.ifr d =>
    Except.ok (s ++ altitudeClause d ++ frequencyClause rd ++ squawkClause fp)
  | DepDetails.empty =>
    Except.ok (s ++ frequencyClause rd ++ squawkClause fp)

/-! ### Scan characterization -/

/-- Success of one of the three tie-break rules of the IFR scan for a
candidate procedure `d`: auto-apply (zero declared waypoints), the
transition search loop, or the waypoint search loop.  Each search loop
stops at its first membership hit, and the scan then tests the Python
truthiness of the recorded binding, hence `(firstMem …).getD "" != ""`. -/
def ruleSucceeds (sid : SidDef) (tokens : List String) (d : IfrDep) : Bool :=
  d.waypoints.isEmpty ||
  (firstMem sid.transitions tokens).getD "" != "" ||
  (firstMem tokens d.waypoints).getD "" != ""

/-- The first procedure of the stored departure list whose `sid` equals
the route's first token and for which one of the tie-break rules
succeeds. -/
def firstApplicable (t0 : String) (sid : SidDef) (tokens : List String)
    (deps : List IfrDep) : Option IfrDep :=
  deps.find? (fun d => d.sid == t0 && ruleSucceeds sid tokens d)

deriving instance DecidableEq for Except

/-! ### Concrete data used by the witnesses and counterexamples -/

/-- Example SID definition. -/
def sidABC : SidDef :=
  { name := "ABC1", type := "CONV", transitions := ["T1", "T2"],
    waypoints := ["PT1"] }

/-- Example IFR departure procedure with zero declared waypoints. -/
def depAuto : IfrDep :=
  { sid := "ABC", waypoints := [], cvs := true, top_altitude := "SID",
    departure_frequency := some "F1", aircraft_types := [] }

/-- Example VFR departure entry. -/
def vfrN : VfrDep :=
  { direction := ["N", "NE"], altitude := "2000",
    instructions := "fly heading 360", departure_frequency := some "F1" }

/-- Example rule set with one runway configuration `"18"`. -/
def exRules : Rules :=
  { runway_configurations := some ["18"]
    sids := some [("ABC", sidABC)]
    ifr_departures := some [("18", [depAuto])]
    vfr_departures := some [("18", [vfrN])]
    departure_frequencies := some [("F1", "121.9")] }

/-- Example rule set whose configuration `"18"` is listed in
`runway_configurations` but has no entry in `ifr_departures`. -/
def exRulesNoEntry : Rules :=
  { exRules with ifr_departures := some [] }

/-- Example IFR flight plan routed over the example SID. -/
def fpEx : FlightPlan :=
  { ident := "N123AB", aircraft_type := "C172", origin_icao := "KSFO",
    origin_details := none, origin_raw_metar := "", destination_icao := "KLAX",
    destination_details := none, operator_icao := "", route := "ABC XYZ PT1",
    squawk := 1234, rules_details := emptyRulesDetails }

/-- The rules details the engine resolves for `fpEx` on configuration `"18"`. -/
def rdEx : RulesDetails :=
  { dep_details := DepDetails.ifr depAuto
    dep_frequency := "121.9"
    dep_transition := ""
    dep_waypoint := "PT1"
    sid_details := some sidABC
    vfr_altitude := ""
    vfr_instructions := "" }

/-- `fpEx` after the engine's write-back. -/
def fpEx2 : FlightPlan :=
  { fpEx with rules_details := rdEx }

/-- Flight plan whose route orders the SID transitions as `T2 T1`. -/
def fpT2T1 : FlightPlan :=
  { fpEx with route := "ABC T2 T1" }

/-- Flight plan whose whole route is the bare marker `"VFR"`. -/
def fpVFRonly : FlightPlan :=
  { fpEx with route := "VFR" }

/-- Flight plan with route `"ABC"` (first token a known SID). -/
def fpABC : FlightPlan :=
  { fpEx with route := "ABC" }

/-- A raw departure record with all fields absent. -/
def blankDep : RawDeparture :=
  { ident := none, aircraft_type := none, origin := none,
    destination := none, operator_icao := none, route := none }

/-- A raw departure record carrying a plain IFR route. -/
def ifrDepRec : RawDeparture :=
  { ident := some "UAL1", aircraft_type := some "B738",
    origin := some { code_icao := some "KSFO" },
    destination := some { code_icao := some "KLAX" },
    operator_icao := some "UAL", route := some "ABC T1" }

/-- A zero entropy record for the VFR generator. -/
def er0 : VfrRand :=
  { identNum := 0, identC1 := 0, identC2 := 0, acType := 0,
    routeDir := 0, squawkR := 0 }

theorem ifrScan_eq_firstApplicable (t0 : String) (sid : SidDef)
    (tokens : List String) (deps : List IfrDep) (rd : RulesDetails)
    (ht : rd.dep_transition = "") (hw : rd.dep_waypoint = "") :
    ifrScan t0 sid tokens rd deps =
      match firstApplicable t0 sid tokens deps with
      | none =>
        if deps.any (fun d => d.sid == t0) then
          { rd with sid_details := some sid }
        else rd
      | some d =>
        if d.waypoints.isEmpty then
          { rd with sid_details := some sid
                    dep_details := DepDetails.ifr d
                    dep_transition := (firstMem sid.transitions tokens).getD ""
                    dep_waypoint := (firstMem tokens sid.waypoints).getD "" }
        else if (firstMem sid.transitions tokens).getD "" != "" then
          { rd with sid_details := some sid
                    dep_details := DepDetails.ifr d
                    dep_transition := (firstMem sid.transitions tokens).getD ""
                    dep_waypoint := (firstMem sid.transitions tokens).getD "" }
        else
          { rd with sid_details := some sid
                    dep_details := DepDetails.ifr d
                    dep_waypoint := (firstMem tokens d.waypoints).getD "" } := by
  induction deps generalizing rd with
  | nil => simp [ifrScan, firstApplicable]
  | cons d rest ih =>
    obtain ⟨dd, df, dt, dw, sd, va, vi⟩ := rd
    simp only at ht hw
    subst ht hw
    by_cases hs : d.sid = t0
    · subst hs
      by_cases hwp : d.waypoints.isEmpty = true
      · cases hf1 : firstMem sid.transitions tokens <;>
          cases hf2 : firstMem tokens sid.waypoints <;>
            simp [ifrScan, firstApplicable, ruleSucceeds, hwp, hf1, hf2]
      · cases hf1 : firstMem sid.transitions tokens with
        | some t =>
          by_cases htt : t = ""
          · subst htt
            cases hf2 : firstMem tokens d.waypoints with
            | some w =>
              by_cases hww : w = ""
              · subst hww
                rw [show (ifrScan d.sid sid tokens ⟨dd, df, "", "", sd, va, vi⟩ (d :: rest)) =
                    ifrScan d.sid sid tokens ⟨dd, df, "", "", some sid, va, vi⟩ rest by
                  simp [ifrScan, hwp, hf1, hf2]]
                rw [ih _ rfl rfl]
                simp only [firstApplicable, List.find?_cons, List.any_cons,
                  ruleSucceeds, hwp, hf1, hf2]
                simp
              · simp [ifrScan, firstApplicable, ruleSucceeds, hwp, hf1, hf2, hww]
            | none =>
              rw [show (ifrScan d.sid sid tokens ⟨dd, df, "", "", sd, va, vi⟩ (d :: rest)) =
                  ifrScan d.sid sid tokens ⟨dd, df, "", "", some sid, va, vi⟩ rest by
                simp [ifrScan, hwp, hf1, hf2]]
              rw [ih _ rfl rfl]
              simp only [firstApplicable, List.find?_cons, List.any_cons,
                ruleSucceeds, hwp, hf1, hf2]
              simp
          · simp [ifrScan, firstApplicable, ruleSucceeds, hwp, hf1, htt]
        | none =>
          cases hf2 : firstMem tokens d.waypoints with
          | some w =>
            by_cases hww : w = ""
            · subst hww
              rw [show (ifrScan d.sid sid tokens ⟨dd, df, "", "", sd, va, vi⟩ (d :: rest)) =
                  ifrScan d.sid sid tokens ⟨dd, df, "", "", some sid, va, vi⟩ rest by
                simp [ifrScan, hwp, hf1, hf2]]
              rw [ih _ rfl rfl]
              simp only [firstApplicable, List.find?_cons, List.any_cons,
                ruleSucceeds, hwp, hf1, hf2]
              simp
            · simp [ifrScan, firstApplicable, ruleSucceeds, hwp, hf1, hf2, hww]
          | none =>
            rw [show (ifrScan d.sid sid tokens ⟨dd, df, "", "", sd, va, vi⟩ (d :: rest)) =
                ifrScan d.sid sid tokens ⟨dd, df, "", "", some sid, va, vi⟩ rest by
              simp [ifrScan, hwp, hf1, hf2]]
            rw [ih _ rfl rfl]
            simp only [firstApplicable, List.find?_cons, List.any_cons,
              ruleSucceeds, hwp, hf1, hf2]
            simp
    · rw [show (ifrScan t0 sid tokens ⟨dd, df, "", "", sd, va, vi⟩ (d :: rest)) =
          ifrScan t0 sid tokens ⟨dd, df, "", "", sd, va, vi⟩ rest by
        simp [ifrScan, hs]]
      rw [ih _ rfl rfl]
      simp [firstApplicable, ruleSucceeds, hs]
/-! ### lemmas scratch -/

theorem firstMem_mem {xs ys : List String} {x : String}
    (h : firstMem xs ys = some x) : x ∈ xs ∧ ys.contains x = true := by
  induction xs with
  | nil => simp [firstMem] at h
  | cons a as ih =>
    by_cases hm : a ∈ ys
    · simp [firstMem, hm] at h
      subst h
      exact ⟨List.mem_cons_self a as, by simp [hm]⟩
    · simp [firstMem, hm] at h
      obtain ⟨h1, h2⟩ := ih h
      exact ⟨List.mem_cons_of_mem _ h1, h2⟩

theorem firstMem_getD_left {xs ys : List String} (hx : "" ∉ xs) :
    ((firstMem xs ys).getD "" != "") = xs.any (fun t => ys.contains t) := by
  induction xs with
  | nil => simp [firstMem]
  | cons a as ih =>
    have ha : a ≠ "" := fun h => hx (h ▸ List.mem_cons_self a as)
    by_cases hm : a ∈ ys
    · simp [firstMem, hm, ha]
    · simp only [firstMem, List.any_cons]
      rw [if_neg (by simp [hm]), ih (fun hmm => hx (List.mem_cons_of_mem _ hmm))]
      simp [hm]

theorem firstMem_getD_right {xs ys : List String} (hy : "" ∉ ys) :
    ((firstMem xs ys).getD "" != "") = xs.any (fun t => ys.contains t) := by
  induction xs with
  | nil => simp [firstMem]
  | cons a as ih =>
    by_cases hm : a ∈ ys
    · have ha : a ≠ "" := fun h => hy (h ▸ hm)
      simp [firstMem, hm, ha]
    · simp only [firstMem, List.any_cons]
      rw [if_neg (by simp [hm]), ih]
      simp [hm]

theorem freqStep_preserves (rules : Rules) (rd : RulesDetails) :
    (freqStep rules rd).dep_details = rd.dep_details ∧
    (freqStep rules rd).dep_transition = rd.dep_transition ∧
    (freqStep rules rd).dep_waypoint = rd.dep_waypoint ∧
    (freqStep rules rd).sid_details = rd.sid_details ∧
    (freqStep rules rd).vfr_altitude = rd.vfr_altitude ∧
    (freqStep rules rd).vfr_instructions = rd.vfr_instructions := by
  unfold freqStep
  split
  · split <;> simp
  · simp

theorem vfrStep_not_marked (rules : Rules) (route cfg : String)
    (rd : RulesDetails) (h : containsSub route "VFR" = false) :
    vfrStep rules route cfg rd = Except.ok rd := by
  unfold vfrStep
  simp [h]

theorem ifrStep_marked (rules : Rules) (route cfg : String)
    (h : containsSub route "VFR" = true) :
    ifrStep rules route cfg = Except.ok emptyRulesDetails := by
  unfold ifrStep
  simp [h]

/-- C1: for an IFR flight plan (non-empty route without the `"VFR"`
marker) whose first route token is a known SID and whose runway
configuration is known (with a stored departure list), `get_rules_info`
selects as `dep_details` exactly the first procedure, in stored order,
whose `sid` equals the first token and for which a tie-break rule
succeeds; a sid-matching procedure with zero declared waypoints always
succeeds (auto-apply, short-circuiting the scan); if no considered
procedure succeeds, `dep_details` stays empty.  Absent degenerate
empty-string tokens, rule success agrees with the plain "some route
token matches" reading of the transition / waypoint rules. -/
theorem c1_ifr_scan_first_applicable (rules : Rules) (fp : FlightPlan) (cfg : String)
    (sids : List (String × SidDef)) (ifrMap : List (String × List IfrDep))
    (rcs : List String) (sid : SidDef) (deps : List IfrDep)
    (hroute : fp.route ≠ "")
    (hnv : containsSub fp.route "VFR" = false)
    (hsids : rules.sids = some sids)
    (hifr : rules.ifr_departures = some ifrMap)
    (hrcs : rules.runway_configurations = some rcs)
    (hcfg : rcs.contains cfg = true)
    (hsid : lookupS sids ((pySplitSpace fp.route).headD "") = some sid)
    (hdeps : lookupS ifrMap cfg = some deps) :
    (get_rules_info rules fp cfg).map (fun p => p.1.dep_details) =
      Except.ok
        (match firstApplicable ((pySplitSpace fp.route).headD "") sid
            (pySplitSpace fp.route) deps with
         | some d => DepDetails.ifr d
         | none => DepDetails.empty) ∧
    (∀ d ∈ deps, d.sid = (pySplitSpace fp.route).headD "" →
      d.waypoints.isEmpty = true →
      ruleSucceeds sid (pySplitSpace fp.route) d = true) ∧
    ("" ∉ sid.transitions → ∀ d ∈ deps, "" ∉ d.waypoints →
      ruleSucceeds sid (pySplitSpace fp.route) d =
        (d.waypoints.isEmpty ||
         sid.transitions.any (fun t => (pySplitSpace fp.route).contains t) ||
         (pySplitSpace fp.route).any (fun w => d.waypoints.contains w))) := by
  refine ⟨?_, ?_, ?_⟩
  · have h1 : ifrStep rules fp.route cfg =
        Except.ok (ifrScan ((pySplitSpace fp.route).headD "") sid
          (pySplitSpace fp.route) emptyRulesDetails deps) := by
      have hsid2 : lookupS sids ((pySplitSpace fp.route).head?.getD "") = some sid := by
        rw [← List.headD_eq_head?_getD]; exact hsid
      have hcfg2 : cfg ∈ rcs := List.elem_iff.mp hcfg
      simp [ifrStep, hroute, hnv, hsids, hifr, hrcs, hdeps, hsid2, hcfg2]
    have h2 := vfrStep_not_marked rules fp.route cfg
      (ifrScan ((pySplitSpace fp.route).headD "") sid
        (pySplitSpace fp.route) emptyRulesDetails deps) hnv
    simp only [get_rules_info, get_rules_details, h1, h2, Except.map]
    rw [(freqStep_preserves rules _).1,
      ifrScan_eq_firstApplicable _ _ _ _ _ rfl rfl]
    cases hfa : firstApplicable ((pySplitSpace fp.route).headD "") sid
        (pySplitSpace fp.route) deps with
    | none =>
      cases hany : deps.any
          (fun d => d.sid == (pySplitSpace fp.route).headD "") <;>
        simp [hany, emptyRulesDetails]
    | some d =>
      by_cases hwp : d.waypoints.isEmpty = true
      · simp [hwp]
      · by_cases htr : ((firstMem sid.transitions (pySplitSpace fp.route)).getD "" != "") = true
        · simp [hwp, htr]
        · simp [hwp, htr]
  · intro d _ _ hwp
    simp [ruleSucceeds, hwp]
  · intro hnt d _ hnw
    unfold ruleSucceeds
    rw [firstMem_getD_left hnt, firstMem_getD_right hnw]


theorem freqStep_empty (rules : Rules) :
    freqStep rules emptyRulesDetails = emptyRulesDetails := by
  cases hdf : rules.departure_frequencies <;> rfl

/-- C2: for every flight plan and every runway configuration not
contained in the rule set's `runway_configurations`, `get_rules_info`
returns the all-empty rules details (and writes them back), regardless
of the route. -/
theorem c2_unknown_configuration_empty (rules : Rules) (fp : FlightPlan) (cfg : String)
    (rcs : List String)
    (hrcs : rules.runway_configurations = some rcs)
    (hcfg : rcs.contains cfg = false) :
    get_rules_info rules fp cfg =
      Except.ok (emptyRulesDetails,
        { fp with rules_details := emptyRulesDetails }) := by
  have h1 : ifrStep rules fp.route cfg = Except.ok emptyRulesDetails := by
    unfold ifrStep
    split
    · split
      · rename_i heq
        rw [heq] at hrcs
        cases hrcs
      · rename_i rcs2 heq
        rw [heq] at hrcs
        injection hrcs with he
        subst he
        have hm : cfg ∉ rcs2 := fun hmm => by simp [hmm] at hcfg
        split
        · rename_i hcc
          rw [hcc] at hcfg
          cases hcfg
        · simp only []
          split <;> rfl
    · rfl
  have h2 : vfrStep rules fp.route cfg emptyRulesDetails =
      Except.ok emptyRulesDetails := by
    unfold vfrStep
    split
    · split
      · rename_i heq
        rw [heq] at hrcs
        cases hrcs
      · rename_i rcs2 heq
        rw [heq] at hrcs
        injection hrcs with he
        subst he
        have hm : cfg ∉ rcs2 := fun hmm => by simp [hmm] at hcfg
        simp [hcfg, hm]
    · rfl
  simp [get_rules_info, get_rules_details, h1, h2, freqStep_empty]

/-- C5: recomputation is idempotent — if a call resolves `(rd, fp2)`
(with `fp2` the plan after write-back), calling `get_rules_info` again
on `fp2` with the same rule set and configuration yields the same
details and the same plan; the `Rules` argument is a pure value the
engine never alters. -/
theorem c5_idempotent_recompute (rules : Rules) (fp : FlightPlan) (cfg : String)
    (rd : RulesDetails) (fp2 : FlightPlan)
    (h : get_rules_info rules fp cfg = Except.ok (rd, fp2)) :
    get_rules_info rules fp2 cfg = Except.ok (rd, fp2) := by
  unfold get_rules_info at h ⊢
  cases hcore : get_rules_details rules fp.route cfg with
  | error e => rw [hcore] at h; cases h
  | ok rd0 =>
    rw [hcore] at h
    simp only [Except.ok.injEq, Prod.mk.injEq] at h
    obtain ⟨rfl, rfl⟩ := h
    simp [hcore]

/-- C6: every successful call writes the returned rules details onto
the plan's `rules_details` field and leaves every other field (ident,
aircraft type, origin / destination, operator, route, squawk, METAR,
details) unchanged. -/
theorem c6_writeback_frame (rules : Rules) (fp : FlightPlan) (cfg : String)
    (rd : RulesDetails) (fp2 : FlightPlan)
    (h : get_rules_info rules fp cfg = Except.ok (rd, fp2)) :
    fp2.rules_details = rd ∧ fp2.ident = fp.ident ∧
    fp2.aircraft_type = fp.aircraft_type ∧
    fp2.origin_icao = fp.origin_icao ∧
    fp2.destination_icao = fp.destination_icao ∧
    fp2.operator_icao = fp.operator_icao ∧
    fp2.route = fp.route ∧ fp2.squawk = fp.squawk ∧
    fp2.origin_raw_metar = fp.origin_raw_metar ∧
    fp2.origin_details = fp.origin_details ∧
    fp2.destination_details = fp.destination_details := by
  unfold get_rules_info at h
  cases hcore : get_rules_details rules fp.route cfg with
  | error e => rw [hcore] at h; cases h
  | ok rd0 =>
    rw [hcore] at h
    simp only [Except.ok.injEq, Prod.mk.injEq] at h
    obtain ⟨rfl, rfl⟩ := h
    simp

/-- C10: when the route contains the substring `"VFR"` but splits into
fewer than two space-separated tokens, while `vfr_departures` is present
and the runway configuration is known, `get_rules_info` raises
`IndexError` (the VFR branch indexes `route.split(" ")[1]`). -/
theorem c10_vfr_short_route_index_error (rules : Rules) (fp : FlightPlan) (cfg : String)
    (rcs : List String) (vfrMap : List (String × List VfrDep))
    (hvfr : rules.vfr_departures = some vfrMap)
    (hrcs : rules.runway_configurations = some rcs)
    (hcfg : rcs.contains cfg = true)
    (hmark : containsSub fp.route "VFR" = true)
    (hshort : (pySplitSpace fp.route).length < 2) :
    get_rules_info rules fp cfg = Except.error PyErr.indexError := by
  have hroute : fp.route ≠ "" := by
    intro h
    rw [h] at hmark
    exact absurd hmark (by decide)
  have h1 := ifrStep_marked rules fp.route cfg hmark
  have hidx : (pySplitSpace fp.route)[1]? = none :=
    List.getElem?_eq_none (by omega)
  have hcfg2 : cfg ∈ rcs := List.elem_iff.mp hcfg
  have h2 : vfrStep rules fp.route cfg emptyRulesDetails =
      Except.error PyErr.indexError := by
    simp [vfrStep, hroute, hmark, hvfr, hrcs, hcfg2, hidx]
  simp [get_rules_info, get_rules_details, h1, h2]

/-- C3 (amended): `get_rules_info` handles absent data — a rule set
missing any of `sids` / `ifr_departures` / `vfr_departures` /
`departure_frequencies`, an unknown runway configuration, or no matching
procedure — by leaving fields empty, *provided* every consulted runway
configuration listed in `runway_configurations` has an entry in the
corresponding `ifr_departures` / `vfr_departures` mapping (otherwise a
`KeyError` escapes, see the counterexample) and a VFR-marked route has
at least two tokens (otherwise an `IndexError` escapes, see C10). -/
theorem c3_missing_entry_amended (rules : Rules) (fp : FlightPlan) (cfg : String)
    (rcs : List String)
    (hrcs : rules.runway_configurations = some rcs)
    (hifr : ∀ ifrMap, rules.ifr_departures = some ifrMap →
      rcs.contains cfg = true → (lookupS ifrMap cfg).isSome = true)
    (hvfr : ∀ vfrMap, rules.vfr_departures = some vfrMap →
      rcs.contains cfg = true → (lookupS vfrMap cfg).isSome = true)
    (htok : containsSub fp.route "VFR" = true →
      2 ≤ (pySplitSpace fp.route).length) :
    (get_rules_info rules fp cfg).isOk = true := by
  have h1 : (ifrStep rules fp.route cfg).isOk = true := by
    unfold ifrStep
    split
    · rename_i hguard
      simp only [Bool.and_eq_true, Option.isSome_iff_exists] at hguard
      obtain ⟨⟨⟨-, -⟩, ifrMap, hmap⟩, sids, hsids⟩ := hguard
      split
      · rename_i heq
        rw [heq] at hrcs
        cases hrcs
      · rename_i rcs2 heq
        rw [heq] at hrcs
        injection hrcs with he
        subst he
        by_cases hc : rcs2.contains cfg = true
        · have hsm := hifr ifrMap hmap hc
          have hm : cfg ∈ rcs2 := List.elem_iff.mp hc
          cases hl : lookupS ifrMap cfg with
          | none => rw [hl] at hsm; cases hsm
          | some deps =>
            cases hs2 : lookupS (rules.sids.getD [])
                ((pySplitSpace fp.route).head?.getD "") <;>
              simp [hc, hm, hmap, hl, hs2, Except.isOk, Except.toBool]
        · have hm : cfg ∉ rcs2 := fun hmm => hc (by simp [hmm])
          simp [hc, hm, Except.isOk, Except.toBool]
    · simp [Except.isOk, Except.toBool]
  have h2 : ∀ rd, (vfrStep rules fp.route cfg rd).isOk = true := by
    intro rd
    unfold vfrStep
    split
    · rename_i hguard
      simp only [Bool.and_eq_true, Option.isSome_iff_exists] at hguard
      obtain ⟨⟨-, hmark⟩, vfrMap, hmap⟩ := hguard
      split
      · rename_i heq
        rw [heq] at hrcs
        cases hrcs
      · rename_i rcs2 heq
        rw [heq] at hrcs
        injection hrcs with he
        subst he
        by_cases hc : rcs2.contains cfg = true
        · have hlen := htok hmark
          have hsm := hvfr vfrMap hmap hc
          have hm : cfg ∈ rcs2 := List.elem_iff.mp hc
          cases hgt : (pySplitSpace fp.route)[1]? with
          | none =>
            exfalso
            have := List.getElem?_eq_none_iff.mp hgt
            omega
          | some dir =>
            cases hl : lookupS vfrMap cfg with
            | none => rw [hl] at hsm; cases hsm
            | some deps => simp [hc, hm, hgt, hmap, hl, Except.isOk, Except.toBool]
        · have hm : cfg ∉ rcs2 := fun hmm => hc (by simp [hmm])
          simp [hc, hm, Except.isOk, Except.toBool]
    · simp [Except.isOk, Except.toBool]
  cases hif : ifrStep rules fp.route cfg with
  | error e => rw [hif] at h1; cases h1
  | ok rd1 =>
    have h2e := h2 rd1
    cases hvf : vfrStep rules fp.route cfg rd1 with
    | error e => rw [hvf] at h2e; cases h2e
    | ok rd2 =>
      simp only [get_rules_info, get_rules_details, hif, hvf]
      rfl

/-- C4 (amended): in the auto-apply tie-break (matched procedure with
zero declared waypoints), `dep_transition` is bound to the first SID
transition, in the SID's stored `transitions` order, that occurs among
the route tokens (not the first route token that is a transition), and
`dep_waypoint` to the first route token, in route order, that is one of
the SID's declared waypoints; both default to the empty string and the
procedure is recorded as `dep_details` either way. -/
theorem c4_auto_apply_bindings_amended (rules : Rules) (fp : FlightPlan) (cfg : String)
    (sids : List (String × SidDef)) (ifrMap : List (String × List IfrDep))
    (rcs : List String) (sid : SidDef) (deps : List IfrDep) (d : IfrDep)
    (hroute : fp.route ≠ "")
    (hnv : containsSub fp.route "VFR" = false)
    (hsids : rules.sids = some sids)
    (hifr : rules.ifr_departures = some ifrMap)
    (hrcs : rules.runway_configurations = some rcs)
    (hcfg : rcs.contains cfg = true)
    (hsid : lookupS sids ((pySplitSpace fp.route).headD "") = some sid)
    (hdeps : lookupS ifrMap cfg = some deps)
    (hfind : firstApplicable ((pySplitSpace fp.route).headD "") sid
      (pySplitSpace fp.route) deps = some d)
    (hwp : d.waypoints.isEmpty = true) :
    (get_rules_info rules fp cfg).map
        (fun p => (p.1.dep_details, p.1.dep_transition, p.1.dep_waypoint)) =
      Except.ok (DepDetails.ifr d,
        (firstMem sid.transitions (pySplitSpace fp.route)).getD "",
        (firstMem (pySplitSpace fp.route) sid.waypoints).getD "") := by
  have h1 : ifrStep rules fp.route cfg =
      Except.ok (ifrScan ((pySplitSpace fp.route).headD "") sid
        (pySplitSpace fp.route) emptyRulesDetails deps) := by
    have hsid2 : lookupS sids ((pySplitSpace fp.route).head?.getD "") = some sid := by
      rw [← List.headD_eq_head?_getD]; exact hsid
    have hcfg2 : cfg ∈ rcs := List.elem_iff.mp hcfg
    simp [ifrStep, hroute, hnv, hsids, hifr, hrcs, hdeps, hsid2, hcfg2]
  have h2 := vfrStep_not_marked rules fp.route cfg
    (ifrScan ((pySplitSpace fp.route).headD "") sid
      (pySplitSpace fp.route) emptyRulesDetails deps) hnv
  simp only [get_rules_info, get_rules_details, h1, h2, Except.map]
  rw [ifrScan_eq_firstApplicable _ _ _ _ _ rfl rfl, hfind]
  simp only [hwp, if_true]
  obtain ⟨p1, p2, p3, -, -, -⟩ := freqStep_preserves rules
    { emptyRulesDetails with
        sid_details := some sid
        dep_details := DepDetails.ifr d
        dep_transition := (firstMem sid.transitions (pySplitSpace fp.route)).getD ""
        dep_waypoint := (firstMem (pySplitSpace fp.route) sid.waypoints).getD "" }
  rw [p1, p2, p3]

theorem pyRandint_squawk_bounds (r : Nat) :
    100 ≤ pyRandint 100 6999 r ∧ pyRandint 100 6999 r ≤ 6999 := by
  unfold pyRandint
  have : r % 6900 < 6900 := Nat.mod_lt _ (by omega)
  omega

theorem ifrPlansGo_shape (metar : String) (rand : Nat → Nat) (number : Nat) :
    ∀ i departures fp, fp ∈ ifrPlansGo metar rand number i departures →
      ∃ d r, d ∈ departures ∧ fp = mkIfrFlightPlan metar d r := by
  intro i departures
  induction departures generalizing i with
  | nil => intro fp hm; simp [ifrPlansGo] at hm
  | cons d rest ih =>
    intro fp hm
    rw [ifrPlansGo] at hm
    by_cases hn : number ≤ i
    · simp [hn] at hm
    · simp only [if_neg hn, List.mem_cons] at hm
      rcases hm with rfl | hm
      · exact ⟨d, rand i, List.mem_cons_self _ _, rfl⟩
      · obtain ⟨d2, r2, hd2, rfl⟩ := ih _ _ hm
        exact ⟨d2, r2, List.mem_cons_of_mem _ hd2, rfl⟩

/-- C7: every flight plan produced by the VFR generator or the IFR
generator carries a squawk in [100, 6999] (the `random.randint(100,
6999)` draw), and the only operation that rewrites a plan
(`get_rules_info`) leaves the squawk unchanged. -/
theorem c7_squawk_range :
    (∀ origin metar number rand fp,
      fp ∈ generate_vfr_flight_plans origin metar number rand →
      100 ≤ fp.squawk ∧ fp.squawk ≤ 6999) ∧
    (∀ metar departures number rand fp,
      fp ∈ get_ifr_flight_plans metar departures number rand →
      100 ≤ fp.squawk ∧ fp.squawk ≤ 6999) ∧
    (∀ rules fp cfg rd fp2,
      get_rules_info rules fp cfg = Except.ok (rd, fp2) →
      fp2.squawk = fp.squawk) := by
  refine ⟨?_, ?_, ?_⟩
  · intro origin metar number rand fp hm
    simp only [generate_vfr_flight_plans, List.mem_map] at hm
    obtain ⟨i, -, rfl⟩ := hm
    exact pyRandint_squawk_bounds _
  · intro metar departures number rand fp hm
    obtain ⟨d, r, -, rfl⟩ := ifrPlansGo_shape metar rand number 0 departures fp hm
    exact pyRandint_squawk_bounds _
  · intro rules fp cfg rd fp2 h
    unfold get_rules_info at h
    cases hcore : get_rules_details rules fp.route cfg with
    | error e => rw [hcore] at h; cases h
    | ok rd0 =>
      rw [hcore] at h
      simp only [Except.ok.injEq, Prod.mk.injEq] at h
      obtain ⟨rfl, rfl⟩ := h
      rfl

/-- C8: the IFR clearance builder never fails on IFR-resolved data: a
matched procedure contributes a climb-via-SID clause when `cvs` is true,
with an "Except maintain" sub-clause exactly when `top_altitude` is not
the sentinel `"SID"`, and a plain "Maintain" clause when `cvs` is false;
the string ends with the squawk clause, never-resolved data (empty
`dep_details`) simply omits its clause, and the squawk code is rendered
as exactly 4 zero-padded digits. -/
theorem c8_ifr_clearance_structure (origin : String) (fp : FlightPlan)
    (rd : RulesDetails) (hsq : fp.squawk ≠ 0) :
    (∀ d, rd.dep_details = DepDetails.ifr d →
      build_ifr_clearance origin fp rd =
        Except.ok (ifrPrefix origin fp rd ++
          (if d.cvs then
            "Climb via SID, " ++
              (if d.top_altitude ≠ "SID" then
                "Except maintain " ++ d.top_altitude ++ ", " else "")
          else "Maintain " ++ d.top_altitude ++ ", ") ++
          frequencyClause rd ++ ("Squawk " ++ pad4 fp.squawk))) ∧
    (rd.dep_details = DepDetails.empty →
      build_ifr_clearance origin fp rd =
        Except.ok (ifrPrefix origin fp rd ++ frequencyClause rd ++
          ("Squawk " ++ pad4 fp.squawk))) ∧
    (fp.squawk ≤ 9999 → (pad4 fp.squawk).length = 4) := by
  refine ⟨?_, ?_, ?_⟩
  · intro d hd
    unfold build_ifr_clearance
    simp only [hd]
    by_cases hcvs : d.cvs = true
    · by_cases hta : d.top_altitude = "SID"
      · simp [altitudeClause, squawkClause, hcvs, hta, hsq]
      · simp [altitudeClause, squawkClause, hcvs, hta, hsq]
    · simp [altitudeClause, squawkClause, hcvs, hsq]
  · intro hd
    unfold build_ifr_clearance
    simp only [hd]
    simp [squawkClause, hsq]
  · intro hle
    unfold pad4
    rw [if_pos (by omega)]
    rfl

theorem containsSub_vfr_route (x : String) :
    containsSub ("VFR " ++ x) "VFR" = true := by
  have h : ("VFR " ++ x).toList = 'V' :: 'F' :: 'R' :: ' ' :: x.toList := by
    simp [String.toList]
  rw [containsSub, h, hasSubList]
  have hpre : ("VFR".toList.isPrefixOf ('V' :: 'F' :: 'R' :: ' ' :: x.toList)) = true :=
    List.isPrefixOf_iff_prefix.mpr ⟨' ' :: x.toList, rfl⟩
  rw [hpre, Bool.true_or]

theorem vfr_plan_marked (origin metar : String) (e : VfrRand) :
    (flight_rules (mkVfrFlightPlan origin metar e) == "VFR") = true := by
  simp [flight_rules, mkVfrFlightPlan, containsSub_vfr_route]

theorem ifr_plan_not_marked (metar : String) (d : RawDeparture) (r : Nat)
    (h1 : strOrEmpty d.route ≠ "")
    (h2 : containsSub (strOrEmpty d.route) "VFR" = false) :
    (flight_rules (mkIfrFlightPlan metar d r) == "VFR") = false := by
  simp [flight_rules, mkIfrFlightPlan, h1, h2]

theorem ifrPlansGo_length (metar : String) (rand : Nat → Nat) (number : Nat) :
    ∀ i departures, (ifrPlansGo metar rand number i departures).length =
      min (number - i) departures.length := by
  intro i departures
  induction departures generalizing i with
  | nil => simp [ifrPlansGo]
  | cons d rest ih =>
    rw [ifrPlansGo]
    by_cases hn : number ≤ i
    · rw [if_pos hn]
      simp [Nat.sub_eq_zero_of_le hn]
    · rw [if_neg hn]
      simp only [List.length_cons, ih (i + 1)]
      omega

theorem ifrPlansGo_count_zero (metar : String) (rand : Nat → Nat) (number : Nat)
    (departures : List RawDeparture)
    (hdep : ∀ d ∈ departures, strOrEmpty d.route ≠ "" ∧
      containsSub (strOrEmpty d.route) "VFR" = false) :
    ∀ i, (ifrPlansGo metar rand number i departures).countP
      (fun fp => flight_rules fp == "VFR") = 0 := by
  induction departures with
  | nil => intro i; simp [ifrPlansGo]
  | cons d rest ih =>
    intro i
    rw [ifrPlansGo]
    by_cases hn : number ≤ i
    · simp [hn]
    · rw [if_neg hn, List.countP_cons]
      have hd := hdep d (List.mem_cons_self _ _)
      rw [ifr_plan_not_marked metar d (rand i) hd.1 hd.2]
      have := ih (fun d2 hd2 => hdep d2 (List.mem_cons_of_mem _ hd2)) (i + 1)
      simpa using this

theorem generate_vfr_count (origin metar : String) (number : Nat)
    (rand : Nat → VfrRand) :
    (generate_vfr_flight_plans origin metar number rand).countP
      (fun fp => flight_rules fp == "VFR") = number ∧
    (generate_vfr_flight_plans origin metar number rand).length = number := by
  constructor
  · rw [generate_vfr_flight_plans, List.countP_map]
    rw [List.countP_eq_length.mpr]
    · exact List.length_range number
    · intro i _
      exact vfr_plan_marked origin metar (rand i)
  · simp [generate_vfr_flight_plans]

/-- C9 (amended): the requested VFR count is clamped above to `number`
(non-negative inputs stay in `[0, number]`, but a negative `vfr_number`
is not clamped from below — see the counterexample); for non-negative
inputs and enough IFR records, the batch handed to `random.shuffle`
holds exactly `clamp_vfr number vfr_number` VFR-marked plans out of
`number` total, and those counts are invariant under any permutation
(the shuffle). -/
theorem c9_merge_shuffle_amended (number vfr_number : Int) (metar origin : String)
    (departures : List RawDeparture) (ifrRand : Nat → Nat) (vfrRand : Nat → VfrRand)
    (hn : 0 ≤ number) (hv : 0 ≤ vfr_number)
    (hdep : ∀ d ∈ departures, strOrEmpty d.route ≠ "" ∧
      containsSub (strOrEmpty d.route) "VFR" = false)
    (hlen : (number - clamp_vfr number vfr_number).toNat ≤ departures.length) :
    (0 ≤ clamp_vfr number vfr_number ∧ clamp_vfr number vfr_number ≤ number) ∧
    (route_flight_plans number vfr_number metar departures ifrRand origin
      vfrRand).length = number.toNat ∧
    (route_flight_plans number vfr_number metar departures ifrRand origin
      vfrRand).countP (fun fp => flight_rules fp == "VFR")
      = (clamp_vfr number vfr_number).toNat ∧
    (∀ l : List FlightPlan, l.Perm (route_flight_plans number vfr_number
        metar departures ifrRand origin vfrRand) →
      l.countP (fun fp => flight_rules fp == "VFR")
        = (clamp_vfr number vfr_number).toNat) := by
  have hb : 0 ≤ clamp_vfr number vfr_number ∧ clamp_vfr number vfr_number ≤ number := by
    unfold clamp_vfr
    split <;> omega
  have hlen2 : (route_flight_plans number vfr_number metar departures ifrRand origin
      vfrRand).length = number.toNat := by
    unfold route_flight_plans
    rw [List.length_append]
    by_cases hnum : number > 0
    · rw [if_pos hnum]
      rw [show (get_ifr_flight_plans metar departures
          (number - clamp_vfr number vfr_number).toNat ifrRand).length =
          (number - clamp_vfr number vfr_number).toNat from ?_]
      · by_cases hvp : clamp_vfr number vfr_number > 0
        · rw [if_pos hvp, (generate_vfr_count origin metar _ vfrRand).2]
          omega
        · rw [if_neg hvp]
          simp only [List.length_nil]
          omega
      · rw [get_ifr_flight_plans, ifrPlansGo_length]
        omega
    · rw [if_neg hnum]
      by_cases hvp : clamp_vfr number vfr_number > 0
      · omega
      · rw [if_neg hvp]
        simp only [List.length_nil, List.nil_append]
        omega
  have hifrz : (get_ifr_flight_plans metar departures
      (number - clamp_vfr number vfr_number).toNat ifrRand).countP
      (fun fp => flight_rules fp == "VFR") = 0 := by
    rw [get_ifr_flight_plans]
    exact ifrPlansGo_count_zero metar ifrRand _ departures hdep 0
  have hcnt : (route_flight_plans number vfr_number metar departures ifrRand origin
      vfrRand).countP (fun fp => flight_rules fp == "VFR")
      = (clamp_vfr number vfr_number).toNat := by
    unfold route_flight_plans
    rw [List.countP_append]
    by_cases hnum : number > 0
    · rw [if_pos hnum, hifrz]
      by_cases hvp : clamp_vfr number vfr_number > 0
      · rw [if_pos hvp, (generate_vfr_count origin metar _ vfrRand).1]
        omega
      · rw [if_neg hvp]
        simp only [List.countP_nil]
        omega
    · rw [if_neg hnum]
      by_cases hvp : clamp_vfr number vfr_number > 0
      · omega
      · rw [if_neg hvp]
        simp only [List.countP_nil]
        omega
  refine ⟨hb, hlen2, hcnt, ?_⟩
  intro l hp
  rw [hp.countP_eq]
  exact hcnt

/-- C3 counterexample: configuration `"18"` is listed in
`runway_configurations` but has no entry in `ifr_departures`; with an
IFR route over a known SID, `get_rules_info` raises `KeyError` instead
of returning empty rules details. -/
theorem c3_counterexample :
    get_rules_info exRulesNoEntry fpABC "18" =
      Except.error (PyErr.keyError "18") := by decide

/-- C4 counterexample: with SID transitions stored as `["T1", "T2"]` and
route `"ABC T2 T1"`, the engine binds `dep_transition` to `"T1"` (the
first transition in the SID's stored order found in the route), while
the first route token that is a transition is `"T2"`. -/
theorem c4_counterexample :
    (get_rules_info exRules fpT2T1 "18").map (fun p => p.1.dep_transition) =
      Except.ok "T1" ∧
    firstMem (pySplitSpace fpT2T1.route) sidABC.transitions = some "T2" ∧
    ("T1" : String) ≠ "T2" := by decide

/-- C9 counterexample: a negative requested VFR count is not clamped to
`[0, n]`: with `n = 5`, `k = -1` the clamp keeps `-1` and the batch
holds `n - k = 6 > n` IFR plans. -/
theorem c9_counterexample :
    clamp_vfr 5 (-1) = -1 ∧
    (route_flight_plans 5 (-1) "" (List.replicate 6 blankDep) (fun _ => 0)
      "KSFO" (fun _ => er0)).length = 6 := by decide

/-- Witness for C1 at the example rule set: the first route token `"ABC"`
is a known SID, configuration `"18"` is known, and the scan selects the
auto-apply procedure. -/
theorem c1_witness :
    (["18"].contains "18" = true) ∧
    (get_rules_info exRules fpEx "18").map (fun p => p.1.dep_details) =
      Except.ok (DepDetails.ifr depAuto) := by
  refine ⟨by decide, ?_⟩
  have h := (c1_ifr_scan_first_applicable exRules fpEx "18" [("ABC", sidABC)]
    [("18", [depAuto])] ["18"] sidABC [depAuto] (by decide) (by decide)
    rfl rfl rfl (by decide) (by decide) (by decide)).1
  exact h.trans (by decide)

/-- Witness for C2: configuration `"99"` is not in the example rule
set's `runway_configurations`, and resolution yields the all-empty
details. -/
theorem c2_witness :
    (["18"].contains "99" = false) ∧
    get_rules_info exRules fpEx "99" =
      Except.ok (emptyRulesDetails,
        { fpEx with rules_details := emptyRulesDetails }) :=
  ⟨by decide, c2_unknown_configuration_empty exRules fpEx "99" ["18"] rfl (by decide)⟩

/-- Witness for the amended C3: on the example rule set, whose known
configuration has entries in both mappings, resolution succeeds. -/
theorem c3_witness :
    (get_rules_info exRules fpEx "18").isOk = true :=
  c3_missing_entry_amended exRules fpEx "18" ["18"] rfl
    (fun m hm _ => by injection hm with h; subst h; decide)
    (fun m hm _ => by injection hm with h; subst h; decide)
    (fun hmk => absurd hmk (by decide))

/-- Witness for the amended C4: on the example rule set with route
`"ABC XYZ PT1"`, the auto-apply procedure is recorded, no transition
occurs in the route (`dep_transition` stays empty) and `"PT1"` is the
first route token among the SID's waypoints. -/
theorem c4_witness :
    (get_rules_info exRules fpEx "18").map
        (fun p => (p.1.dep_details, p.1.dep_transition, p.1.dep_waypoint)) =
      Except.ok (DepDetails.ifr depAuto, "", "PT1") := by
  have h := c4_auto_apply_bindings_amended exRules fpEx "18" [("ABC", sidABC)]
    [("18", [depAuto])] ["18"] sidABC [depAuto] depAuto (by decide) (by decide)
    rfl rfl rfl (by decide) (by decide) (by decide) (by decide) (by decide)
  exact h.trans (by decide)

/-- Witness for C5: recomputing on the written-back plan `fpEx2`
reproduces the same details and plan. -/
theorem c5_witness :
    get_rules_info exRules fpEx2 "18" = Except.ok (rdEx, fpEx2) :=
  c5_idempotent_recompute exRules fpEx "18" rdEx fpEx2 (by decide)

/-- Witness for C6: after resolving `fpEx` on `"18"`, the returned plan
carries the details in `rules_details` and every other field of `fpEx`
unchanged. -/
theorem c6_witness :
    fpEx2.rules_details = rdEx ∧ fpEx2.ident = fpEx.ident ∧
    fpEx2.aircraft_type = fpEx.aircraft_type ∧
    fpEx2.origin_icao = fpEx.origin_icao ∧
    fpEx2.destination_icao = fpEx.destination_icao ∧
    fpEx2.operator_icao = fpEx.operator_icao ∧
    fpEx2.route = fpEx.route ∧ fpEx2.squawk = fpEx.squawk ∧
    fpEx2.origin_raw_metar = fpEx.origin_raw_metar ∧
    fpEx2.origin_details = fpEx.origin_details ∧
    fpEx2.destination_details = fpEx.destination_details :=
  c6_writeback_frame exRules fpEx "18" rdEx fpEx2 (by decide)

/-- Witness for C7: a concretely generated VFR plan is in range. -/
theorem c7_witness :
    100 ≤ (mkVfrFlightPlan "KSFO" "" er0).squawk ∧
    (mkVfrFlightPlan "KSFO" "" er0).squawk ≤ 6999 :=
  c7_squawk_range.1 "KSFO" "" 1 (fun _ => er0) (mkVfrFlightPlan "KSFO" "" er0)
    (by decide)

/-- Witness for C8: the clearance for the resolved example plan carries
the climb-via-SID clause without the "Except maintain" sub-clause (the
top altitude is the sentinel), the frequency clause and the final squawk
clause. -/
theorem c8_witness :
    fpEx.squawk ≠ 0 ∧
    build_ifr_clearance "KSFO" fpEx rdEx =
      Except.ok (ifrPrefix "KSFO" fpEx rdEx ++ "Climb via SID, " ++
        frequencyClause rdEx ++ ("Squawk " ++ pad4 fpEx.squawk)) := by
  refine ⟨by decide, ?_⟩
  have h := (c8_ifr_clearance_structure "KSFO" fpEx rdEx (by decide)).1 depAuto rfl
  exact h.trans (by decide)

/-- Witness for the amended C9: a batch of `n = 10` with `k = 3` over
seven IFR-routed records holds exactly 3 VFR-marked plans out of 10. -/
theorem c9_witness :
    (0 ≤ clamp_vfr 10 3 ∧ clamp_vfr 10 3 ≤ 10) ∧
    (route_flight_plans 10 3 "" (List.replicate 7 ifrDepRec) (fun _ => 0)
      "KSFO" (fun _ => er0)).length = (10 : Int).toNat ∧
    (route_flight_plans 10 3 "" (List.replicate 7 ifrDepRec) (fun _ => 0)
      "KSFO" (fun _ => er0)).countP (fun fp => flight_rules fp == "VFR")
      = (clamp_vfr 10 3).toNat := by
  have h := c9_merge_shuffle_amended 10 3 "" "KSFO" (List.replicate 7 ifrDepRec)
    (fun _ => 0) (fun _ => er0) (by decide) (by decide) (by decide) (by decide)
  exact ⟨h.1, h.2.1, h.2.2.1⟩

/-- Witness for C10: the bare route `"VFR"` with a known configuration
raises `IndexError`. -/
theorem c10_witness :
    get_rules_info exRules fpVFRonly "18" = Except.error PyErr.indexError :=
  c10_vfr_short_route_index_error exRules fpVFRonly "18" ["18"] [("18", [vfrN])]
    rfl rfl (by decide) (by decide) (by decide)
